import Mathlib

/-!
Verification development for the Yarrow PRNG plugin layer
(`src/plugins/prng/plugin_yarrow/plugin_prng_impl.c`): the entropy
estimator, the OS entropy reader, the accumulator lifecycle manager and
the seed/output protocol are embedded shallowly, with the external
Yarrow accumulator, the OS calls (open/fstat/read/close) and the
entropy-ingestion callback modelled as environments supplying the
results the C code branches on.
-/

/-- Modelled from the spec: the entropy source kind enumeration
(legacy-API, OS-random-device, trusted-third-party, timing-jitter,
external-protocol-negotiated, in enumeration order), whose numeric
values come from a header (`k5-int.h`) that is not under `src/`; the
spec fixes the order and that identifiers equal enumeration indices.
Legacy-API input. -/
def KRB5_C_RANDSOURCE_OLDAPI : Nat := 0

/-- OS-random-device input (see `KRB5_C_RANDSOURCE_OLDAPI`). -/
def KRB5_C_RANDSOURCE_OSRAND : Nat := 1

/-- Trusted-third-party input (see `KRB5_C_RANDSOURCE_OLDAPI`). -/
def KRB5_C_RANDSOURCE_TRUSTEDPARTY : Nat := 2

/-- Timing-jitter input (see `KRB5_C_RANDSOURCE_OLDAPI`). -/
def KRB5_C_RANDSOURCE_TIMING : Nat := 3

/-- External-protocol-negotiated input (see `KRB5_C_RANDSOURCE_OLDAPI`). -/
def KRB5_C_RANDSOURCE_EXTERNAL_PROTOCOL : Nat := 4

/-- Number of source kinds, one past the last enumerator
(see `KRB5_C_RANDSOURCE_OLDAPI`). -/
def KRB5_C_RANDSOURCE_MAX : Nat := 5

/-- Modelled from the spec: the accumulator's slow-pool threshold in
bits (`YARROW_SLOW_THRESH`, defined in `yarrow.h`, which is not under
`src/`); the OS reader's buffer size is this value divided by 8. The
concrete value is irrelevant to the claims, which only mention the
threshold-bits / 8 relation. -/
def YARROW_SLOW_THRESH : Nat := 160

/-- Result of `entropy_estimate`: either a returned bit count, or
process abort (the C `abort()` call does not return). -/
inductive EstimateResult
  | value (bits : Nat)
  | abort
deriving DecidableEq, Repr

/-- Shallow embedding of `entropy_estimate` (plugin_prng_impl.c lines
48-66): a pure switch on the source kind. The `default` branch calls
`abort()`, modelled as `EstimateResult.abort`. Lengths are modelled as
mathematical naturals: the only caller passes a 32-bit buffer length,
so the `size_t` products `4 * length` and `8 * length` cannot wrap. -/
def entropy_estimate (randsource : Nat) (length : Nat) : EstimateResult :=
  if randsource = KRB5_C_RANDSOURCE_OLDAPI then .value (4 * length)
  else if randsource = KRB5_C_RANDSOURCE_OSRAND then .value (8 * length)
  else if randsource = KRB5_C_RANDSOURCE_TRUSTEDPARTY then .value (4 * length)
  else if randsource = KRB5_C_RANDSOURCE_TIMING then .value 2
  else if randsource = KRB5_C_RANDSOURCE_EXTERNAL_PROTOCOL then .value 0
  else .abort

/-- Result codes of the external Yarrow accumulator as the plugin
distinguishes them: the plugin compares only against `YARROW_OK` and
`YARROW_NOT_SEEDED`, so every other code is a single failure case. -/
inductive YarrowStatus
  | ok
  | notSeeded
  | otherFail
deriving DecidableEq, Repr

instance : Fintype YarrowStatus :=
  ⟨⟨{.ok, .notSeeded, .otherFail}, by decide⟩, by intro x; cases x <;> decide⟩

example : entropy_estimate KRB5_C_RANDSOURCE_OSRAND 16 = .value 128 := by decide
example : entropy_estimate 9 3 = .abort := by decide

/-- Environment for one call to `read_entropy_from_device`: the results
the OS returns for this candidate device. `openOk` is whether
`open(device, O_RDONLY)` succeeds, `fstatOk` whether `fstat` succeeds,
`isReg` the value of `S_ISREG(sb.st_mode)`, `reads` the successive
return values of `read` (the device delivers this finite sequence and
then end-of-file), and `addEntropyOk` whether
`krb5_c_random_add_entropy` returns 0. -/
structure DeviceEnv where
  openOk : Bool
  fstatOk : Bool
  isReg : Bool
  reads : List Int
  addEntropyOk : Bool
deriving DecidableEq, Repr

/-- Observable outcome of `read_entropy_from_device`: `retval` is the
C return value viewed as a boolean (nonzero means entropy was read and
accepted), `entropyAdded` whether `krb5_c_random_add_entropy` was
invoked with the filled buffer, and `closes` how many times `close`
was called on the descriptor. -/
structure DeviceOutcome where
  retval : Bool
  entropyAdded : Bool
  closes : Nat
deriving DecidableEq, Repr

/-- The read loop of `read_entropy_from_device` (lines 116-125):
`left` bytes remain to be filled; each `read` returns the next element
of `reads` (end-of-file, i.e. 0, once the list is exhausted); a return
value `count <= 0` aborts with failure, a positive `count` advances the
cursor by `count` bytes. Returns whether the buffer was completely
filled. -/
def fillLoop (reads : List Int) (left : Nat) : Bool :=
  if left = 0 then true
  else
    match reads with
    | [] => false
    | count :: rest =>
      if count ≤ 0 then false
      else fillLoop rest (left - count.toNat)

/-- Shallow embedding of `read_entropy_from_device` (lines 98-131):
open the device (failure returns 0 with no descriptor to close), check
via `fstat` that it is not a regular file (else close and return 0),
read until the `YARROW_SLOW_THRESH/8`-byte buffer is full (a read
returning `count <= 0` closes and returns 0), then close, feed the
buffer to `krb5_c_random_add_entropy` tagged `KRB5_C_RANDSOURCE_OSRAND`
and return whether that ingestion succeeded. -/
def read_entropy_from_device (env : DeviceEnv) : DeviceOutcome :=
  if env.openOk = false then ⟨false, false, 0⟩
  else if env.fstatOk = false || env.isReg then ⟨false, false, 1⟩
  else if fillLoop env.reads (YARROW_SLOW_THRESH / 8) then
    ⟨env.addEntropyOk, true, 1⟩
  else ⟨false, false, 1⟩

/-- The total number of bytes delivered by the longest prefix of
positive `read` results: the bytes the loop of
`read_entropy_from_device` can accumulate before a `read` returns an
error or end-of-file. -/
def posPrefixSum (reads : List Int) : Nat :=
  ((reads.takeWhile fun c => 0 < c).map Int.toNat).sum

/-- The read loop fills the buffer exactly when the positive reads at
the front of the sequence deliver at least `left` bytes before any
zero/negative result. -/
theorem fillLoop_eq_true_iff (reads : List Int) (left : Nat) :
    fillLoop reads left = true ↔ left ≤ posPrefixSum reads := by
  induction reads generalizing left with
  | nil =>
    rw [fillLoop]
    by_cases hl : left = 0 <;> simp [hl, posPrefixSum]
  | cons c rest ih =>
    rw [fillLoop]
    have hsum : posPrefixSum (c :: rest) =
        if 0 < c then c.toNat + posPrefixSum rest else 0 := by
      by_cases hc : 0 < c <;> simp [posPrefixSum, List.takeWhile_cons, hc]
    by_cases hl : left = 0
    · subst hl; simp
    · rw [if_neg hl]
      by_cases hc : c ≤ 0
      · have h0 : ¬ (0 < c) := not_lt.mpr hc
        rw [hsum, if_neg h0, if_pos hc]
        simp only [Bool.false_eq_true, false_iff]
        omega
      · have h0 : 0 < c := not_le.mp hc
        rw [hsum, if_pos h0]
        simp only [if_neg hc, ih]
        omega

example : read_entropy_from_device ⟨true, true, false, [10, 10], true⟩ =
    ⟨true, true, 1⟩ := by decide
example : read_entropy_from_device ⟨true, true, false, [10, 0, 10], true⟩ =
    ⟨false, false, 1⟩ := by decide
example : read_entropy_from_device ⟨true, true, true, [30], true⟩ =
    ⟨false, false, 1⟩ := by decide

/-- Environment for `_plugin_prng_os_seed` on UNIX: the behavior of the
two candidate devices, `/dev/random` (blocking/strong) and
`/dev/urandom` (non-blocking). -/
structure OsSeedEnv where
  devRandom : DeviceEnv
  devUrandom : DeviceEnv
deriving DecidableEq, Repr

/-- Observable outcome of `_plugin_prng_os_seed`: the returned
`krb5_error_code`, the value stored through the `success` out-pointer
(`none` when the caller passed a null pointer, in which case the C
code writes to a local `unused` variable instead), and the device
paths handed to `read_entropy_from_device`, in call order. -/
structure OsSeedOutcome where
  retcode : Nat
  stored : Option Bool
  attempts : List String
deriving DecidableEq, Repr

/-- Shallow embedding of the UNIX `_plugin_prng_os_seed` (lines
133-151): `*oursuccess = 0`; if `strong`, try `/dev/random` and set
the flag on success; then always try `/dev/urandom` and set the flag
on success; return 0. `successPtr` records whether the caller passed a
non-null `success` pointer. -/
def _plugin_prng_os_seed (env : OsSeedEnv) (strong : Bool)
    (successPtr : Bool) : OsSeedOutcome :=
  let afterRandom : Bool :=
    strong && (read_entropy_from_device env.devRandom).retval
  let finalFlag : Bool :=
    afterRandom || (read_entropy_from_device env.devUrandom).retval
  { retcode := 0
    stored := if successPtr then some finalFlag else none
    attempts := (if strong then ["/dev/random"] else []) ++ ["/dev/urandom"] }

/-- Shallow embedding of the `_WIN32` `_plugin_prng_os_seed` (lines
75-81): no device concept; store 0 through the pointer when it is
non-null and return 0 with no side effects. -/
def _plugin_prng_os_seed_win (strong : Bool) (successPtr : Bool) :
    OsSeedOutcome :=
  { retcode := 0
    stored := if successPtr then some false else none
    attempts := [] }

/-- Return values of the plugin entry points as the code produces
them: 0 (`ok`) or the generic `KRB5_CRYPTO_INTERNAL` error. -/
inductive PrngResult
  | ok
  | cryptoInternal
deriving DecidableEq, Repr

instance : Fintype PrngResult :=
  ⟨⟨{.ok, .cryptoInternal}, by decide⟩, by intro x; cases x <;> decide⟩

/-- Environment for `_plugin_prng_rand`: the accumulator's responses,
in order of possible use — the first `krb5int_yarrow_output` call, the
`krb5int_yarrow_reseed(YARROW_SLOW_POOL)` call, and the retried
`krb5int_yarrow_output` call. A response is unused when the control
flow never reaches that call. -/
structure RandEnv where
  output1 : YarrowStatus
  reseed : YarrowStatus
  output2 : YarrowStatus
deriving DecidableEq, Repr, Fintype

/-- Observable outcome of `_plugin_prng_rand`: the returned error code
and how many `krb5int_yarrow_output` and `krb5int_yarrow_reseed` calls
were made. -/
structure RandOutcome where
  retcode : PrngResult
  outputCalls : Nat
  reseedCalls : Nat
deriving DecidableEq, Repr

/-- Shallow embedding of `_plugin_prng_rand` (lines 174-187): request
output; on `YARROW_NOT_SEEDED`, reseed the slow pool and, if the
reseed succeeded, retry the output once; any final status other than
`YARROW_OK` becomes `KRB5_CRYPTO_INTERNAL`. The buffer contents and
length are opaque to this control flow. -/
def _plugin_prng_rand (env : RandEnv) : RandOutcome :=
  let yerr := env.output1
  let afterRetry : YarrowStatus × Nat × Nat :=
    if yerr = .notSeeded then
      let rerr := env.reseed
      if rerr = .ok then (env.output2, 2, 1)
      else (rerr, 1, 1)
    else (yerr, 1, 0)
  if afterRetry.1 ≠ .ok then
    ⟨.cryptoInternal, afterRetry.2.1, afterRetry.2.2⟩
  else
    ⟨.ok, afterRetry.2.1, afterRetry.2.2⟩

example : _plugin_prng_rand ⟨.notSeeded, .ok, .ok⟩ = ⟨.ok, 2, 1⟩ := by decide
example : _plugin_prng_rand ⟨.notSeeded, .otherFail, .ok⟩ =
    ⟨.cryptoInternal, 1, 1⟩ := by decide
example : _plugin_prng_rand ⟨.otherFail, .ok, .ok⟩ =
    ⟨.cryptoInternal, 1, 0⟩ := by decide

/-- Environment for `_plugin_prng_init`: the error code of
`k5_mutex_finish_init` (0 on success), the status of
`krb5int_yarrow_init`, and for each registration call (indexed by the
order in which `krb5int_yarrow_new_source` is invoked) either the
source identifier it stores on `YARROW_OK`, or `none` for any
non-`YARROW_OK` status. -/
structure InitEnv where
  mutexFinishInit : Nat
  yarrowInit : YarrowStatus
  newSource : Nat → Option Nat

/-- Result of `_plugin_prng_init`: success, the `k5_mutex_finish_init`
error code passed through unchanged, the generic
`KRB5_CRYPTO_INTERNAL` error, or termination by the failed
`assert (source_id == i)`. -/
inductive InitResult
  | ok
  | sysErr (e : Nat)
  | cryptoInternal
  | assertionFailure
deriving DecidableEq, Repr

/-- The registration loop of `_plugin_prng_init` (lines 212-216),
started at index `i` with `remaining` iterations to go: each iteration
calls `krb5int_yarrow_new_source`; a non-`YARROW_OK` status returns
`KRB5_CRYPTO_INTERNAL`, and `assert (source_id == i)` kills the
process on a mismatched identifier. Also returns the list of loop
indices for which a registration call was made, in call order. -/
def registerLoop (ns : Nat → Option Nat) (i remaining : Nat) :
    InitResult × List Nat :=
  match remaining with
  | 0 => (.ok, [])
  | r + 1 =>
    match ns i with
    | none => (.cryptoInternal, [i])
    | some id =>
      if id = i then
        let rest := registerLoop ns (i + 1) r
        (rest.1, i :: rest.2)
      else (.assertionFailure, [i])

/-- Shallow embedding of `_plugin_prng_init` (lines 198-219): finish
initializing the guarding lock, passing any error through; initialize
the accumulator, where `YARROW_OK` and `YARROW_NOT_SEEDED` are both
acceptable and anything else is `KRB5_CRYPTO_INTERNAL`; then register
the `KRB5_C_RANDSOURCE_MAX` source kinds in enumeration order. The
second component is the list of registration calls made. -/
def _plugin_prng_init (env : InitEnv) : InitResult × List Nat :=
  if env.mutexFinishInit ≠ 0 then (.sysErr env.mutexFinishInit, [])
  else if env.yarrowInit ≠ .ok ∧ env.yarrowInit ≠ .notSeeded then
    (.cryptoInternal, [])
  else registerLoop env.newSource 0 KRB5_C_RANDSOURCE_MAX

example : _plugin_prng_init ⟨0, .notSeeded, fun i => some i⟩ =
    (.ok, [0, 1, 2, 3, 4]) := by decide
example : _plugin_prng_init ⟨0, .ok, fun i => if i = 2 then none else some i⟩ =
    (.cryptoInternal, [0, 1, 2]) := by decide
example : _plugin_prng_init ⟨0, .ok, fun i => if i = 3 then some 7 else some i⟩ =
    (.assertionFailure, [0, 1, 2, 3]) := by decide
example : _plugin_prng_init ⟨5, .ok, fun i => some i⟩ =
    (.sysErr 5, []) := by decide
example : _plugin_prng_init ⟨0, .otherFail, fun i => some i⟩ =
    (.cryptoInternal, []) := by decide

theorem registerLoop_zero (ns : Nat → Option Nat) (i : Nat) :
    registerLoop ns i 0 = (.ok, []) := rfl

theorem registerLoop_succ (ns : Nat → Option Nat) (i r : Nat) :
    registerLoop ns i (r + 1) =
      match ns i with
      | none => (.cryptoInternal, [i])
      | some id =>
        if id = i then
          let rest := registerLoop ns (i + 1) r
          (rest.1, i :: rest.2)
        else (.assertionFailure, [i]) := rfl

/-- When every registration call returns the expected identifier, the
loop succeeds and registers exactly the indices `i, i+1, ...,
i+r-1` in order. -/
theorem registerLoop_all_ok (ns : Nat → Option Nat) (r i : Nat)
    (h : ∀ j, j < r → ns (i + j) = some (i + j)) :
    registerLoop ns i r = (.ok, List.range' i r) := by
  induction r generalizing i with
  | zero => rfl
  | succ m ih =>
    have h0 : ns i = some i := by simpa using h 0 (Nat.succ_pos m)
    rw [registerLoop_succ, h0]
    simp only [if_pos rfl]
    rw [ih (i + 1) fun j hj => by
      have hj1 := h (j + 1) (by omega)
      have he : i + (j + 1) = i + 1 + j := by omega
      rw [he] at hj1
      exact hj1]
    simp [List.range'_succ]

/-- If the first `k` registration calls return the expected
identifiers and the `k`-th call is rejected by the accumulator, the
loop stops there with the generic internal error, after registering
indices `i, ..., i+k`. -/
theorem registerLoop_rejected (ns : Nat → Option Nat) (k : Nat) :
    ∀ i r, k < r → (∀ j, j < k → ns (i + j) = some (i + j)) →
    ns (i + k) = none →
    registerLoop ns i r = (.cryptoInternal, List.range' i (k + 1)) := by
  induction k with
  | zero =>
    intro i r hk hgood hbad
    obtain ⟨m, rfl⟩ : ∃ m, r = m + 1 := ⟨r - 1, by omega⟩
    have h0 : ns i = none := by simpa using hbad
    rw [registerLoop_succ, h0]
    simp [List.range'_succ]
  | succ k ih =>
    intro i r hk hgood hbad
    obtain ⟨m, rfl⟩ : ∃ m, r = m + 1 := ⟨r - 1, by omega⟩
    have h0 : ns i = some i := by simpa using hgood 0 (by omega)
    rw [registerLoop_succ, h0]
    simp only [if_pos rfl]
    rw [ih (i + 1) m (by omega)
      (fun j hj => by
        have hj1 := hgood (j + 1) (by omega)
        have he : i + (j + 1) = i + 1 + j := by omega
        rw [he] at hj1
        exact hj1)
      (by
        have he : i + (k + 1) = i + 1 + k := by omega
        rw [he] at hbad
        exact hbad)]
    simp [List.range'_succ]

/-- If the first `k` registration calls return the expected
identifiers and the `k`-th call returns a wrong identifier, the
assertion kills the process after registration calls on indices
`i, ..., i+k`. -/
theorem registerLoop_mismatch (ns : Nat → Option Nat) (k : Nat) :
    ∀ i r, k < r → (∀ j, j < k → ns (i + j) = some (i + j)) →
    ∀ id, ns (i + k) = some id → id ≠ i + k →
    registerLoop ns i r = (.assertionFailure, List.range' i (k + 1)) := by
  induction k with
  | zero =>
    intro i r hk hgood id hbad hne
    obtain ⟨m, rfl⟩ : ∃ m, r = m + 1 := ⟨r - 1, by omega⟩
    have h0 : ns i = some id := by simpa using hbad
    have hne0 : id ≠ i := by simpa using hne
    rw [registerLoop_succ, h0]
    simp only [if_neg hne0]
    simp [List.range'_succ]
  | succ k ih =>
    intro i r hk hgood id hbad hne
    obtain ⟨m, rfl⟩ : ∃ m, r = m + 1 := ⟨r - 1, by omega⟩
    have h0 : ns i = some i := by simpa using hgood 0 (by omega)
    rw [registerLoop_succ, h0]
    simp only [if_pos rfl]
    rw [ih (i + 1) m (by omega)
      (fun j hj => by
        have hj1 := hgood (j + 1) (by omega)
        have he : i + (j + 1) = i + 1 + j := by omega
        rw [he] at hj1
        exact hj1)
      id
      (by
        have he : i + (k + 1) = i + 1 + k := by omega
        rw [he] at hbad
        exact hbad)
      (by
        have he : i + (k + 1) = i + 1 + k := by omega
        rw [he] at hne
        exact hne)]
    simp [List.range'_succ]

/-- C1: for every buffer, if the accumulator's first output request
reports "not seeded", exactly one reseed request against the slow pool
is issued; if that reseed succeeds the output request is retried
exactly once and success of the retry decides the result; if the retry
fails or the reseed fails, the call returns the single generic
internal error; any other accumulator failure is returned immediately
as the generic internal error with no reseed and no retry; if any
output request succeeds the call returns success. -/
theorem C1_rand_single_reseed_retry :
    ∀ env : RandEnv,
      ((_plugin_prng_rand env).reseedCalls =
        if env.output1 = .notSeeded then 1 else 0) ∧
      (env.output1 = .ok → _plugin_prng_rand env = ⟨.ok, 1, 0⟩) ∧
      (env.output1 = .otherFail →
        _plugin_prng_rand env = ⟨.cryptoInternal, 1, 0⟩) ∧
      (env.output1 = .notSeeded → env.reseed ≠ .ok →
        _plugin_prng_rand env = ⟨.cryptoInternal, 1, 1⟩) ∧
      (env.output1 = .notSeeded → env.reseed = .ok →
        (_plugin_prng_rand env).outputCalls = 2 ∧
        (_plugin_prng_rand env).reseedCalls = 1 ∧
        ((_plugin_prng_rand env).retcode = .ok ↔ env.output2 = .ok)) := by
  decide

/-- Witness for C1 at the never-seeded, successful-reseed input. -/
theorem C1_rand_single_reseed_retry_witness :
    (_plugin_prng_rand ⟨.notSeeded, .ok, .ok⟩).outputCalls = 2 ∧
    (_plugin_prng_rand ⟨.notSeeded, .ok, .ok⟩).reseedCalls = 1 ∧
    ((_plugin_prng_rand ⟨.notSeeded, .ok, .ok⟩).retcode = .ok ↔
      (RandEnv.mk .notSeeded .ok .ok).output2 = .ok) :=
  (C1_rand_single_reseed_retry ⟨.notSeeded, .ok, .ok⟩).2.2.2.2 rfl rfl

/-- C2: for every sample length `L`, the entropy estimator returns
4·L for legacy-API input, 8·L for OS-random-device input, 4·L for
trusted-third-party input, the constant 2 for timing-jitter input and
0 for external-protocol-negotiated input. -/
theorem C2_entropy_estimate_table (L : Nat) :
    entropy_estimate KRB5_C_RANDSOURCE_OLDAPI L = .value (4 * L) ∧
    entropy_estimate KRB5_C_RANDSOURCE_OSRAND L = .value (8 * L) ∧
    entropy_estimate KRB5_C_RANDSOURCE_TRUSTEDPARTY L = .value (4 * L) ∧
    entropy_estimate KRB5_C_RANDSOURCE_TIMING L = .value 2 ∧
    entropy_estimate KRB5_C_RANDSOURCE_EXTERNAL_PROTOCOL L = .value 0 :=
  ⟨rfl, rfl, rfl, rfl, rfl⟩

/-- C3: for every source-kind value outside the fixed enumeration and
every length, the entropy estimator aborts the process and does not
return any value (in particular it does not return 0). -/
theorem C3_entropy_estimate_unknown_kind_aborts (kind L : Nat)
    (h1 : kind ≠ KRB5_C_RANDSOURCE_OLDAPI)
    (h2 : kind ≠ KRB5_C_RANDSOURCE_OSRAND)
    (h3 : kind ≠ KRB5_C_RANDSOURCE_TRUSTEDPARTY)
    (h4 : kind ≠ KRB5_C_RANDSOURCE_TIMING)
    (h5 : kind ≠ KRB5_C_RANDSOURCE_EXTERNAL_PROTOCOL) :
    entropy_estimate kind L = .abort ∧
    ∀ bits, entropy_estimate kind L ≠ .value bits := by
  constructor
  · simp [entropy_estimate, h1, h2, h3, h4, h5]
  · intro bits
    simp [entropy_estimate, h1, h2, h3, h4, h5]

/-- Witness for C3 at the out-of-range kind 9. -/
theorem C3_entropy_estimate_unknown_kind_aborts_witness :
    entropy_estimate 9 3 = .abort ∧
    ∀ bits, entropy_estimate 9 3 ≠ .value bits :=
  C3_entropy_estimate_unknown_kind_aborts 9 3 (by decide) (by decide)
    (by decide) (by decide) (by decide)

/-- C4: `seed_from_os` with `strong` attempts the blocking device
`/dev/random` before any other candidate; `/dev/urandom` is attempted
last regardless of the strong flag; the stored success flag is true
exactly when at least one attempted candidate contributed entropy, so
success from only the non-blocking device still yields overall
success. -/
theorem C4_os_seed_order_and_success (env : OsSeedEnv)
    (strong successPtr : Bool) :
    ((_plugin_prng_os_seed env strong successPtr).attempts =
      if strong then ["/dev/random", "/dev/urandom"]
      else ["/dev/urandom"]) ∧
    ((_plugin_prng_os_seed env strong successPtr).attempts.getLast? =
      some "/dev/urandom") ∧
    ((_plugin_prng_os_seed env strong successPtr).stored =
      if successPtr then
        some ((strong && (read_entropy_from_device env.devRandom).retval) ||
          (read_entropy_from_device env.devUrandom).retval)
      else none) ∧
    ((read_entropy_from_device env.devUrandom).retval = true →
      successPtr = true →
      (_plugin_prng_os_seed env strong successPtr).stored = some true) := by
  refine ⟨?_, ?_, ?_, ?_⟩
  · cases strong <;> rfl
  · cases strong <;> rfl
  · rfl
  · intro hu hp
    subst hp
    simp [_plugin_prng_os_seed, hu]

/-- Witness for C4: strong request, `/dev/random` absent, `/dev/urandom`
delivering; overall success is still reported. -/
theorem C4_os_seed_order_and_success_witness :
    (read_entropy_from_device
      (OsSeedEnv.mk ⟨false, true, false, [], true⟩
        ⟨true, true, false, [20], true⟩).devUrandom).retval = true ∧
    (_plugin_prng_os_seed
      (OsSeedEnv.mk ⟨false, true, false, [], true⟩
        ⟨true, true, false, [20], true⟩) true true).stored = some true :=
  ⟨by decide,
    (C4_os_seed_order_and_success
      (OsSeedEnv.mk ⟨false, true, false, [], true⟩
        ⟨true, true, false, [20], true⟩) true true).2.2.2 (by decide) rfl⟩

/-- C5 counterexample: the claim that any short read aborts the
candidate is false. With the device delivering two partial reads of 10
bytes each against the 20-byte (`YARROW_SLOW_THRESH/8`) buffer, the
first `read` is short (returns 10 with 20 bytes requested) yet the
loop continues, the buffer is completely filled across the two reads,
ingestion happens and the candidate reports success. -/
theorem C5_short_read_counterexample :
    (0 : Int) < 10 ∧ (10 : Nat) < YARROW_SLOW_THRESH / 8 ∧
    read_entropy_from_device ⟨true, true, false, [10, 10], true⟩ =
      ⟨true, true, 1⟩ := by
  decide

/-- C5 amended: the reader fills a fixed-size buffer of exactly
`YARROW_SLOW_THRESH/8` bytes; a read returning zero or a negative
value (error or end-of-file) aborts the candidate, which is closed and
treated as failed, while a positive partial read is accumulated and
reading continues; ingestion happens exactly when the positive reads
at the front of the sequence completely fill the buffer, and the
candidate succeeds exactly when that ingestion is also accepted. -/
theorem C5_read_loop_amended (env : DeviceEnv)
    (hopen : env.openOk = true) (hstat : env.fstatOk = true)
    (hreg : env.isReg = false) :
    ((read_entropy_from_device env).entropyAdded = true ↔
      YARROW_SLOW_THRESH / 8 ≤ posPrefixSum env.reads) ∧
    (read_entropy_from_device env).closes = 1 ∧
    ((read_entropy_from_device env).retval = true ↔
      (YARROW_SLOW_THRESH / 8 ≤ posPrefixSum env.reads ∧
        env.addEntropyOk = true)) := by
  have hfill := fillLoop_eq_true_iff env.reads (YARROW_SLOW_THRESH / 8)
  by_cases hf : fillLoop env.reads (YARROW_SLOW_THRESH / 8) = true
  · have hle := hfill.mp hf
    simp [read_entropy_from_device, hopen, hstat, hreg, hf, hle]
  · have hnle : ¬ YARROW_SLOW_THRESH / 8 ≤ posPrefixSum env.reads :=
      fun hle => hf (hfill.mpr hle)
    simp [read_entropy_from_device, hopen, hstat, hreg, hf, hnle]

/-- Witness for the amended C5: a device delivering 7+13 = 20 bytes in
two positive reads fills the buffer and leads to accepted ingestion. -/
theorem C5_read_loop_amended_witness :
    ((read_entropy_from_device ⟨true, true, false, [7, 13], true⟩
        ).entropyAdded = true ↔
      YARROW_SLOW_THRESH / 8 ≤ posPrefixSum [7, 13]) ∧
    (read_entropy_from_device ⟨true, true, false, [7, 13], true⟩).closes
      = 1 ∧
    ((read_entropy_from_device ⟨true, true, false, [7, 13], true⟩
        ).retval = true ↔
      (YARROW_SLOW_THRESH / 8 ≤ posPrefixSum [7, 13] ∧
        (DeviceEnv.mk true true false [7, 13] true).addEntropyOk = true)) :=
  C5_read_loop_amended ⟨true, true, false, [7, 13], true⟩ rfl rfl rfl

/-- C6: initialization registers every source kind with the
accumulator in enumeration order; when each returned identifier equals
its enumeration index the registration succeeds with exactly the calls
0, 1, ..., MAX-1; a mismatched identifier triggers the assertion
(process termination) rather than a recoverable error; a registration
call the accumulator rejects yields the generic internal error. -/
theorem C6_init_registration (env : InitEnv)
    (hm : env.mutexFinishInit = 0)
    (hy : env.yarrowInit = .ok ∨ env.yarrowInit = .notSeeded) :
    ((∀ i, i < KRB5_C_RANDSOURCE_MAX → env.newSource i = some i) →
      _plugin_prng_init env =
        (.ok, List.range' 0 KRB5_C_RANDSOURCE_MAX)) ∧
    (∀ k, k < KRB5_C_RANDSOURCE_MAX →
      (∀ i, i < k → env.newSource i = some i) →
      env.newSource k = none →
      _plugin_prng_init env = (.cryptoInternal, List.range' 0 (k + 1))) ∧
    (∀ k, k < KRB5_C_RANDSOURCE_MAX →
      (∀ i, i < k → env.newSource i = some i) →
      ∀ id, env.newSource k = some id → id ≠ k →
      _plugin_prng_init env =
        (.assertionFailure, List.range' 0 (k + 1))) := by
  have hinit : _plugin_prng_init env =
      registerLoop env.newSource 0 KRB5_C_RANDSOURCE_MAX := by
    rcases hy with hy | hy <;>
      simp [_plugin_prng_init, hm, hy]
  refine ⟨?_, ?_, ?_⟩
  · intro hall
    rw [hinit]
    exact registerLoop_all_ok env.newSource KRB5_C_RANDSOURCE_MAX 0
      fun j hj => by simpa using hall j hj
  · intro k hk hgood hbad
    rw [hinit]
    exact registerLoop_rejected env.newSource k 0 KRB5_C_RANDSOURCE_MAX hk
      (fun j hj => by simpa using hgood j hj) (by simpa using hbad)
  · intro k hk hgood id hbad hne
    rw [hinit]
    exact registerLoop_mismatch env.newSource k 0 KRB5_C_RANDSOURCE_MAX hk
      (fun j hj => by simpa using hgood j hj) id (by simpa using hbad)
      (by simpa using hne)

/-- Witness for C6: an accumulator handing out identifiers in order
makes initialization succeed with registration calls 0 through 4. -/
theorem C6_init_registration_witness :
    _plugin_prng_init ⟨0, .ok, fun i => some i⟩ =
      (.ok, List.range' 0 KRB5_C_RANDSOURCE_MAX) :=
  (C6_init_registration ⟨0, .ok, fun i => some i⟩ rfl (Or.inl rfl)).1
    fun _ _ => rfl

/-- C7: a candidate whose opened descriptor is a regular file, or
whose file-status query fails, is closed, contributes nothing to the
accumulator and is reported as a failed candidate. -/
theorem C7_regular_file_skipped (env : DeviceEnv)
    (hopen : env.openOk = true)
    (h : env.fstatOk = false ∨ env.isReg = true) :
    read_entropy_from_device env = ⟨false, false, 1⟩ := by
  rcases h with h | h <;> simp [read_entropy_from_device, hopen, h]

/-- Witness for C7: an openable path that resolves to a regular file
full of data is rejected without ingestion. -/
theorem C7_regular_file_skipped_witness :
    read_entropy_from_device ⟨true, true, true, [20], true⟩ =
      ⟨false, false, 1⟩ :=
  C7_regular_file_skipped ⟨true, true, true, [20], true⟩ rfl (Or.inr rfl)

/-- C9: on both platform variants and for every strong flag,
`seed_from_os` returns the error code 0, reporting failure only
through the success out-parameter, and a null success pointer is
accepted with the outcome discarded. -/
theorem C9_os_seed_error_code (env : OsSeedEnv) (strong : Bool) :
    (_plugin_prng_os_seed env strong true).retcode = 0 ∧
    (_plugin_prng_os_seed env strong false).retcode = 0 ∧
    (_plugin_prng_os_seed env strong false).stored = none ∧
    (_plugin_prng_os_seed_win strong true).retcode = 0 ∧
    (_plugin_prng_os_seed_win strong true).stored = some false ∧
    (_plugin_prng_os_seed_win strong false).retcode = 0 ∧
    (_plugin_prng_os_seed_win strong false).stored = none :=
  ⟨rfl, rfl, rfl, rfl, rfl, rfl, rfl⟩

/-- C10: whenever the open of a candidate device succeeds, the
descriptor is closed exactly once before `read_entropy_from_device`
returns, on every path. -/
theorem C10_device_descriptor_closed_once (env : DeviceEnv)
    (hopen : env.openOk = true) :
    (read_entropy_from_device env).closes = 1 := by
  obtain ⟨o, f, r, reads, a⟩ := env
  simp only at hopen
  subst hopen
  by_cases hf : f = true
  · subst hf
    by_cases hr : r = true
    · subst hr; rfl
    · have hr0 : r = false := by simpa using hr
      subst hr0
      by_cases hfill : fillLoop reads (YARROW_SLOW_THRESH / 8) = true <;>
        simp [read_entropy_from_device, hfill]
  · have hf0 : f = false := by simpa using hf
    subst hf0
    rfl

/-- Witness for C10 at a device that fails mid-read. -/
theorem C10_device_descriptor_closed_once_witness :
    (read_entropy_from_device ⟨true, true, false, [5, -1], true⟩).closes
      = 1 :=
  C10_device_descriptor_closed_once ⟨true, true, false, [5, -1], true⟩ rfl
